import Mathlib

/-!
Verification of the qrate-gui load-dispatch and control-tower state machine.

Shallow embedding of `src/load_file.rs` and `src/control_tower.rs`.
Paths (Rust `PathBuf`) are modelled as strings (their UTF-8 path text, so
`to_string_lossy` is the identity); the filesystem and the external `qrate`
backends (`SQLiteDB`, `Excel`) are modelled as oracles packaged in an `Env`
record, since they are external collaborators of this repository.
-/

/-- A filesystem path, modelled as its (UTF-8, POSIX-separated) text. -/
abbrev FsPath := String

/-- Bool test that the character list `s` begins with the character list `pat`. -/
def listStartsWith : List Char → List Char → Bool
  | [], _ => true
  | _ :: _, [] => false
  | p :: ps, c :: cs => p == c && listStartsWith ps cs

/-- Bool test that `pat` occurs as a contiguous substring of `s`. -/
def listContainsSeq (pat : List Char) : List Char → Bool
  | [] => listStartsWith pat []
  | c :: cs => listStartsWith pat (c :: cs) || listContainsSeq pat cs

/-- Rust `str::contains(pat)`: substring occurrence test, used by
`load_qbank_from_path` for the `.qb.xlsx` marker check (load_file.rs line 159). -/
def containsSubstr (s pat : String) : Bool :=
  listContainsSeq pat.data s.data

/-- The final component of a path: the characters after the last separator.
Models the Rust path file_name accessor for ordinary POSIX paths (the `..` and
trailing-separator corner cases never reach the dispatcher). -/
def fileNameChars (p : List Char) : List Char :=
  (p.reverse.takeWhile (fun c => c != '/')).reverse

/-- The Rust path extension accessor: the portion of the file name after the final dot;
`none` when the file name has no dot, or when its only dot is the leading
character (hidden files such as `.xlsx` have no extension). -/
def FsPath.extension (p : FsPath) : Option String :=
  let f := fileNameChars p.data
  let ext := (f.reverse.takeWhile (fun c => c != '.')).reverse
  if ext.length = f.length then none
  else if f.length = ext.length + 1 then none
  else some (String.mk ext)

/-- External qrate domain object (`QBank`); opaque to this repository, with
its sole in-repo constructor `QBank::new_empty()`. -/
inductive QBank where
  | new_empty : QBank
deriving DecidableEq

/-- External qrate domain object (`SBank`); opaque to this repository, with
its sole in-repo constructor `SBank::new()`. -/
inductive SBank where
  | new : SBank
deriving DecidableEq

/-- An opened qrate SQLite backend handle; its only operation used here is
`read_qbank`, modelled by the data it would yield. -/
structure SQLiteDB where
  qbank_data : Option QBank
deriving DecidableEq

/-- `SQLiteDB::read_qbank` (external qrate operation, modelled as an oracle). -/
def SQLiteDB.read_qbank (self : SQLiteDB) : Option QBank :=
  self.qbank_data

/-- An opened qrate Excel backend handle; its only operation used here is
`read_qbank`, modelled by the data it would yield. -/
structure Excel where
  qbank_data : Option QBank
deriving DecidableEq

/-- `Excel::read_qbank` (external qrate operation, modelled as an oracle). -/
def Excel.read_qbank (self : Excel) : Option QBank :=
  self.qbank_data

/-- The external collaborators `load_qbank_from_path` consults: the
filesystem existence check `PathBuf::exists` and the two qrate backend
open functions `SQLiteDB::open` and `Excel::open`. -/
structure Env where
  path_exists : FsPath → Bool
  sqlite_open : String → Option SQLiteDB
  excel_open : String → Option Excel

/-- `ResultLoadFile` from load_file.rs (lines 24-50): the result of an
attempt to load a `QBank`. Note that `UnsupportedExtension` is a unit
variant carrying no payload. -/
inductive ResultLoadFile where
  | Success : QBank → ResultLoadFile
  | FileNotFound : ResultLoadFile
  | FailedToOpenSQLite : ResultLoadFile
  | FailedToReadSQLite : ResultLoadFile
  | FailedToOpenExcel : ResultLoadFile
  | FailedToReadExcel : ResultLoadFile
  | InvalidExcelExtension : ResultLoadFile
  | UnsupportedExtension : ResultLoadFile
deriving DecidableEq

/-- `LoadFile::load_qbank_from_path` (load_file.rs lines 137-177).
The Rust `match extension` over the two recognized literals and a
catch-all arm is rendered as the equivalent equality cascade;
`path.to_string_lossy()` is the identity on our string-modelled paths and
`extension.unwrap_or("")` is `Option.getD`. -/
def LoadFile.load_qbank_from_path (env : Env) (path : FsPath) : ResultLoadFile :=
  if !(env.path_exists path) then ResultLoadFile.FileNotFound
  else if (FsPath.extension path).getD "" = "qbdb" then
    match env.sqlite_open path with
    | some db =>
      match db.read_qbank with
      | some qbank => ResultLoadFile.Success qbank
      | none => ResultLoadFile.FailedToReadSQLite
    | none => ResultLoadFile.FailedToOpenSQLite
  else if (FsPath.extension path).getD "" = "xlsx" then
    if containsSubstr path ".qb.xlsx" then
      match env.excel_open path with
      | some excel =>
        match excel.read_qbank with
        | some qbank => ResultLoadFile.Success qbank
        | none => ResultLoadFile.FailedToReadExcel
      | none => ResultLoadFile.FailedToOpenExcel
    else ResultLoadFile.InvalidExcelExtension
  else ResultLoadFile.UnsupportedExtension

/-- Result of `load_qbank_from_path` together with flags recording which
backend open functions were invoked during the call. -/
structure LoadTrace where
  result : ResultLoadFile
  sqlite_open_called : Bool
  excel_open_called : Bool
deriving DecidableEq

/-- `LoadFile::load_qbank_from_path` with call instrumentation: identical
control flow, additionally recording whether `SQLiteDB::open` and
`Excel::open` were invoked. -/
def LoadFile.load_qbank_from_path_traced (env : Env) (path : FsPath) : LoadTrace :=
  if !(env.path_exists path) then ⟨ResultLoadFile.FileNotFound, false, false⟩
  else if (FsPath.extension path).getD "" = "qbdb" then
    match env.sqlite_open path with
    | some db =>
      match db.read_qbank with
      | some qbank => ⟨ResultLoadFile.Success qbank, true, false⟩
      | none => ⟨ResultLoadFile.FailedToReadSQLite, true, false⟩
    | none => ⟨ResultLoadFile.FailedToOpenSQLite, true, false⟩
  else if (FsPath.extension path).getD "" = "xlsx" then
    if containsSubstr path ".qb.xlsx" then
      match env.excel_open path with
      | some excel =>
        match excel.read_qbank with
        | some qbank => ⟨ResultLoadFile.Success qbank, false, true⟩
        | none => ⟨ResultLoadFile.FailedToReadExcel, false, true⟩
      | none => ⟨ResultLoadFile.FailedToOpenExcel, false, true⟩
    else ⟨ResultLoadFile.InvalidExcelExtension, false, false⟩
  else ⟨ResultLoadFile.UnsupportedExtension, false, false⟩

/-- An environment in which no path exists. -/
def envAbsent : Env :=
  { path_exists := fun _ => false
    sqlite_open := fun _ => none
    excel_open := fun _ => none }

/-- An environment in which every path exists and both backends fail to open. -/
def envPresent : Env :=
  { path_exists := fun _ => true
    sqlite_open := fun _ => none
    excel_open := fun _ => none }

/-- `Message` from control_tower.rs (lines 33-41): the closed message set
of the UI state machine. -/
inductive Message where
  | MenuClicked : String → Message
  | SubMenuClicked : String → Message
  | FileSelected : FsPath → Message
  | SetLocale : String → Message
  | GoToPage : String → Message
deriving DecidableEq

/-- The asynchronous followup tasks this shell can describe. A returned
`Option Effect` models the `Task<Message>` value of `update`:
`Task::none()` is `none`; the inline
`Task::perform(Self::pick_file(), |path_option| FileSelected(path_option.unwrap_or_default()))`
of control_tower.rs lines 414-416 is `some PickFileThenFileSelected`; and
`Task::perform(load_qbank_from_path(path), QBankLoaded)` built by
`LoadFile::perform_load_qbank_task` (load_file.rs lines 229-232, a module
that is not referenced from the crate root) is `some (DispatchLoadQBank path)`. -/
inductive Effect where
  | PickFileThenFileSelected : Effect
  | DispatchLoadQBank : FsPath → Effect
deriving DecidableEq

/-- `LoadFile::perform_load_qbank_task` (load_file.rs lines 229-232) as the
effect it would spawn. -/
def LoadFile.perform_load_qbank_task (path : FsPath) : Effect :=
  Effect.DispatchLoadQBank path

/-- The closure passed to `Task::perform` around `Self::pick_file()` in the
`SubMenuClicked` load branch (control_tower.rs lines 414-416):
`|path_option| Message::FileSelected(path_option.unwrap_or_default())`,
where the default `PathBuf` is the empty path. -/
def pick_file_continuation (path_option : Option FsPath) : Message :=
  Message.FileSelected (path_option.getD "")

/-- `ControlTower` from control_tower.rs (lines 22-31). The font size is a
Rust `f32` holding only the exactly representable literal `24.0`, modelled
as a rational. -/
structure ControlTower where
  qbank : QBank
  sbank : SBank
  selected_file_path : FsPath
  current_menu_key : String
  menu_font_size_in_pixel : ℚ
  current_locale : String
  current_page : String
deriving DecidableEq

/-- `rust_i18n::i18n!("locales", fallback = "en-US")` from lib.rs line 20:
the process-wide i18n fallback locale tag. -/
def i18n_fallback_locale : String := "en-US"

/-- `ControlTower::new` (control_tower.rs lines 97-113). The accompanying
`rust_i18n::set_locale("en")` call is a process-global effect on the
external locale registry, outside the state record. `Task::none()` is
`none`. -/
def ControlTower.new : ControlTower × Option Effect :=
  ({ qbank := QBank.new_empty
     sbank := SBank.new
     selected_file_path := ""
     current_menu_key := ""
     menu_font_size_in_pixel := 24
     current_locale := "en"
     current_page := "main" }, none)

/-- `ControlTower::update` (control_tower.rs lines 400-436), with the
in-place mutation of `self` rendered as explicit state passing.
`String::clear()` on the menu key is assignment of the empty string, and
the `SetLocale` branch additionally performs the external process-global
`rust_i18n::set_locale` effect, which has no in-state observable. -/
def ControlTower.update (self : ControlTower) (message : Message) :
    ControlTower × Option Effect :=
  match message with
  | Message.MenuClicked menu_key =>
    if self.current_menu_key = menu_key
    then ({ self with current_menu_key := "" }, none)
    else ({ self with current_menu_key := menu_key }, none)
  | Message.SubMenuClicked sub_item_key =>
    if sub_item_key = "load" ∨ sub_item_key = "load-problem-bank"
    then (self, some Effect.PickFileThenFileSelected)
    else ({ self with current_menu_key := "" }, none)
  | Message.FileSelected path =>
    ({ self with selected_file_path := path, current_menu_key := "" }, none)
  | Message.SetLocale locale =>
    ({ self with current_locale := locale }, none)
  | Message.GoToPage page_name =>
    ({ self with current_page := page_name }, none)

/-- The submenu item keys the view presents for each open menu
(control_tower.rs lines 564-604). -/
def submenu_items (menu_key : String) : List String :=
  if menu_key = "problem-bank-management" then
    ["create-new-problem-bank", "load", "edit", "export", "export-as", "optimize"]
  else if menu_key = "generate-exam-paper" then
    ["load-problem-bank", "criteria-for-problem-extraction", "load-student-list",
     "export-exam-paper"]
  else if menu_key = "student-list-management" then
    ["load", "edit", "export", "export-as"]
  else if menu_key = "learning" then
    ["load-problem-bank", "criteria-for-problem-extraction", "grading-criteria",
     "take-exam"]
  else if menu_key = "settings" then
    ["storage-path", "atmosphere", "font", "language"]
  else if menu_key = "information" then
    ["help", "software-info", "copyright-info"]
  else ["coming-soon"]

/-- The message the view attaches to pressing a submenu item
(control_tower.rs lines 608-611): the `language` item of the open
`settings` menu navigates directly via `GoToPage`, every other item sends
`SubMenuClicked`. -/
def submenu_on_press (self : ControlTower) (item_key : String) : Message :=
  if self.current_menu_key = "settings" ∧ item_key = "language"
  then Message.GoToPage "language-settings"
  else Message.SubMenuClicked item_key

/-- The concrete state reached from the default state by opening the
`settings` menu. -/
def ctSettingsOpen : ControlTower :=
  (ControlTower.update ControlTower.new.1 (Message.MenuClicked "settings")).1

/-- The instrumentation is conservative: the traced run computes the same
result as the plain embedding. -/
theorem load_traced_result (env : Env) (path : FsPath) :
    (LoadFile.load_qbank_from_path_traced env path).result
      = LoadFile.load_qbank_from_path env path := by
  unfold LoadFile.load_qbank_from_path_traced LoadFile.load_qbank_from_path
  split_ifs <;>
    first
      | rfl
      | (split <;> first | rfl | (split <;> rfl))

example : FsPath.extension "book.xlsx" = some "xlsx" := by decide
example : FsPath.extension "a.qb.xlsx" = some "xlsx" := by decide
example : FsPath.extension ".xlsx" = none := by decide
example : FsPath.extension "dir/notes.txt" = some "txt" := by decide
example : FsPath.extension "noext" = none := by decide
example : FsPath.extension "trailing." = some "" := by decide
example : containsSubstr "data/a.qb.xlsx" ".qb.xlsx" = true := by decide
example : containsSubstr "book.xlsx" ".qb.xlsx" = false := by decide
example : LoadFile.load_qbank_from_path envPresent "a.txt"
    = ResultLoadFile.UnsupportedExtension := by decide
example : LoadFile.load_qbank_from_path envPresent "book.xlsx"
    = ResultLoadFile.InvalidExcelExtension := by decide
example : LoadFile.load_qbank_from_path envPresent "a.qb.xlsx"
    = ResultLoadFile.FailedToOpenExcel := by decide
example : LoadFile.load_qbank_from_path envPresent "bank.qbdb"
    = ResultLoadFile.FailedToOpenSQLite := by decide
example : LoadFile.load_qbank_from_path envAbsent "bank.qbdb"
    = ResultLoadFile.FileNotFound := by decide

/-- Claim C1: for every path that does not exist on the filesystem,
`load_qbank_from_path` returns `FileNotFound`, regardless of the
extension of the path, and neither backend open function is consulted. -/
theorem load_missing_path_file_not_found (env : Env) (p : FsPath)
    (h : env.path_exists p = false) :
    LoadFile.load_qbank_from_path env p = ResultLoadFile.FileNotFound
    ∧ LoadFile.load_qbank_from_path_traced env p
        = ⟨ResultLoadFile.FileNotFound, false, false⟩ := by
  constructor
  · unfold LoadFile.load_qbank_from_path
    rw [h]
    rfl
  · unfold LoadFile.load_qbank_from_path_traced
    rw [h]
    rfl

/-- Witness for C1 at the concrete missing path `ghost.qbdb`. -/
theorem load_missing_path_file_not_found_witness :
    envAbsent.path_exists "ghost.qbdb" = false
    ∧ (LoadFile.load_qbank_from_path envAbsent "ghost.qbdb" = ResultLoadFile.FileNotFound
       ∧ LoadFile.load_qbank_from_path_traced envAbsent "ghost.qbdb"
           = ⟨ResultLoadFile.FileNotFound, false, false⟩) :=
  ⟨rfl, load_missing_path_file_not_found envAbsent "ghost.qbdb" rfl⟩

/-- Claim C2: for every existing path whose extracted extension is `xlsx`
but whose full path text does not contain the `.qb.xlsx` marker,
`load_qbank_from_path` returns `InvalidExcelExtension` and the Excel
backend open function is never invoked. -/
theorem load_xlsx_without_marker_invalid (env : Env) (p : FsPath)
    (hex : env.path_exists p = true)
    (hxlsx : (FsPath.extension p).getD "" = "xlsx")
    (hmark : containsSubstr p ".qb.xlsx" = false) :
    LoadFile.load_qbank_from_path env p = ResultLoadFile.InvalidExcelExtension
    ∧ (LoadFile.load_qbank_from_path_traced env p).excel_open_called = false := by
  have hq : ¬((FsPath.extension p).getD "" = "qbdb") := by
    rw [hxlsx]; decide
  constructor
  · unfold LoadFile.load_qbank_from_path
    rw [hex, hxlsx, hmark]
    simp [hq]
  · unfold LoadFile.load_qbank_from_path_traced
    rw [hex, hxlsx, hmark]
    simp [hq]

/-- Witness for C2 at the concrete existing path `book.xlsx`. -/
theorem load_xlsx_without_marker_invalid_witness :
    envPresent.path_exists "book.xlsx" = true
    ∧ (FsPath.extension "book.xlsx").getD "" = "xlsx"
    ∧ containsSubstr "book.xlsx" ".qb.xlsx" = false
    ∧ (LoadFile.load_qbank_from_path envPresent "book.xlsx"
         = ResultLoadFile.InvalidExcelExtension
       ∧ (LoadFile.load_qbank_from_path_traced envPresent "book.xlsx").excel_open_called
           = false) :=
  ⟨rfl, by decide, by decide,
    load_xlsx_without_marker_invalid envPresent "book.xlsx" rfl (by decide) (by decide)⟩

/-- Claim C3, counterexample to the claim as stated: the code's
`UnsupportedExtension` variant carries no payload, so the result cannot
carry the extension string. Two existing paths with distinct unrecognized
extensions (`txt` and `md`) produce the very same result value. -/
theorem load_unsupported_carries_no_extension_cex :
    (FsPath.extension "a.txt").getD "" = "txt"
    ∧ (FsPath.extension "b.md").getD "" = "md"
    ∧ "txt" ≠ "md"
    ∧ LoadFile.load_qbank_from_path envPresent "a.txt"
        = ResultLoadFile.UnsupportedExtension
    ∧ LoadFile.load_qbank_from_path envPresent "a.txt"
        = LoadFile.load_qbank_from_path envPresent "b.md" := by
  refine ⟨by decide, by decide, by decide, by decide, by decide⟩

/-- Claim C3 (amended): for every existing path whose extracted extension
(empty when missing) is neither `qbdb` nor `xlsx`, `load_qbank_from_path`
returns the payload-free `UnsupportedExtension` variant; in particular an
empty or missing extension is treated as unsupported. -/
theorem load_unrecognized_extension_unsupported (env : Env) (p : FsPath)
    (hex : env.path_exists p = true)
    (h1 : (FsPath.extension p).getD "" ≠ "qbdb")
    (h2 : (FsPath.extension p).getD "" ≠ "xlsx") :
    LoadFile.load_qbank_from_path env p = ResultLoadFile.UnsupportedExtension := by
  unfold LoadFile.load_qbank_from_path
  rw [hex]
  simp [h1, h2]

/-- Witness for C3 (amended) at the concrete existing path `notes.txt`. -/
theorem load_unrecognized_extension_unsupported_witness :
    envPresent.path_exists "notes.txt" = true
    ∧ (FsPath.extension "notes.txt").getD "" ≠ "qbdb"
    ∧ (FsPath.extension "notes.txt").getD "" ≠ "xlsx"
    ∧ LoadFile.load_qbank_from_path envPresent "notes.txt"
        = ResultLoadFile.UnsupportedExtension :=
  ⟨rfl, by decide, by decide,
    load_unrecognized_extension_unsupported envPresent "notes.txt" rfl (by decide) (by decide)⟩

example : ctSettingsOpen.current_menu_key = "settings" := by decide
example : (ControlTower.update ctSettingsOpen (Message.SubMenuClicked "load")).2
    = some Effect.PickFileThenFileSelected := by decide

/-- Claim C4, counterexample to the claim as stated: at the default state
and the concrete path `bank.qbdb`, the `FileSelected` transition returns
no followup at all — in particular not the load-dispatch task that
`LoadFile::perform_load_qbank_task` would build — while it does collapse
the menu. -/
theorem file_selected_no_dispatch_cex :
    (ControlTower.update ControlTower.new.1 (Message.FileSelected "bank.qbdb")).2 = none
    ∧ (ControlTower.update ControlTower.new.1 (Message.FileSelected "bank.qbdb")).2
        ≠ some (LoadFile.perform_load_qbank_task "bank.qbdb")
    ∧ (ControlTower.update ControlTower.new.1
        (Message.FileSelected "bank.qbdb")).1.current_menu_key = "" := by
  decide

/-- Claim C4 (amended): on `FileSelected(path)` the transition stores the
raw path into `selected_file_path`, collapses the menu, and emits no
followup effect; the load dispatcher is not invoked. -/
theorem file_selected_stores_path_and_collapses (st : ControlTower) (p : FsPath) :
    ControlTower.update st (Message.FileSelected p)
      = ({ st with selected_file_path := p, current_menu_key := "" }, none) :=
  rfl

/-- Claim C5, counterexample to the claim as stated: with the `settings`
menu open, applying `SubMenuClicked("language")` to the transition
function yields no followup effect and leaves the page at `main` (so no
`GoToPage("language-settings")` followup is produced); under the view
reading, applying the `GoToPage("language-settings")` press message does
not collapse the menu; and the default state locale `en` differs from the
configured i18n fallback tag. -/
theorem settings_language_scenario_cex :
    (ControlTower.update ctSettingsOpen (Message.SubMenuClicked "language")).2 = none
    ∧ (ControlTower.update ctSettingsOpen
        (Message.SubMenuClicked "language")).1.current_page = "main"
    ∧ (ControlTower.update ctSettingsOpen
        (Message.GoToPage "language-settings")).1.current_menu_key ≠ ""
    ∧ ControlTower.new.1.current_locale ≠ i18n_fallback_locale := by
  decide

/-- Claim C5 (amended): the freshly constructed default state has active
page `main`, no active menu key, and locale `en` (the English default;
the configured i18n fallback tag is `en-US`); after `MenuClicked("settings")`
the menu is open with key `settings`; the `language` item is among the
`settings` submenu items, and pressing it is mapped by the view directly
to `GoToPage("language-settings")` (not a `SubMenuClicked`, hence not a
file-pick effect); applying that message sets the active page to
`language-settings`, emits no followup, and leaves the menu key
`settings` — the menu is not collapsed. -/
theorem settings_language_scenario_amended :
    ControlTower.new.1.current_page = "main"
    ∧ ControlTower.new.1.current_menu_key = ""
    ∧ ControlTower.new.1.current_locale = "en"
    ∧ ctSettingsOpen.current_menu_key = "settings"
    ∧ "language" ∈ submenu_items "settings"
    ∧ submenu_on_press ctSettingsOpen "language" = Message.GoToPage "language-settings"
    ∧ submenu_on_press ctSettingsOpen "language" ≠ Message.SubMenuClicked "language"
    ∧ (ControlTower.update ctSettingsOpen
        (Message.GoToPage "language-settings")).1.current_page = "language-settings"
    ∧ (ControlTower.update ctSettingsOpen (Message.GoToPage "language-settings")).2 = none
    ∧ (ControlTower.update ctSettingsOpen
        (Message.GoToPage "language-settings")).1.current_menu_key = "settings" := by
  decide

/-- Claim C6: `MenuClicked` toggles — from any state whose active menu key
is `k`, applying `MenuClicked(k)` collapses the menu, and applying it once
more restores the active key `k`. -/
theorem menu_clicked_toggles (st : ControlTower) (k : String)
    (h : st.current_menu_key = k) :
    ((ControlTower.update st (Message.MenuClicked k)).1).current_menu_key = ""
    ∧ ((ControlTower.update (ControlTower.update st (Message.MenuClicked k)).1
          (Message.MenuClicked k)).1).current_menu_key = k := by
  have h1 : ControlTower.update st (Message.MenuClicked k)
      = ({ st with current_menu_key := "" }, none) := by
    simp only [ControlTower.update]
    rw [if_pos h]
  rw [h1]
  refine ⟨rfl, ?_⟩
  simp only [ControlTower.update]
  split_ifs with h2
  · exact h2
  · rfl

/-- Witness for C6 at the concrete state with the `settings` menu open. -/
theorem menu_clicked_toggles_witness :
    ctSettingsOpen.current_menu_key = "settings"
    ∧ (((ControlTower.update ctSettingsOpen
          (Message.MenuClicked "settings")).1).current_menu_key = ""
       ∧ ((ControlTower.update
            (ControlTower.update ctSettingsOpen (Message.MenuClicked "settings")).1
            (Message.MenuClicked "settings")).1).current_menu_key = "settings") :=
  ⟨rfl, menu_clicked_toggles ctSettingsOpen "settings" rfl⟩

/-- Claim C7: the `GoToPage` transition sets only the active page — the
whole successor state is the old state with `current_page` replaced, so
the active menu key (and every other field) is unchanged. -/
theorem go_to_page_frame (st : ControlTower) (page_key : String) :
    ControlTower.update st (Message.GoToPage page_key)
      = ({ st with current_page := page_key }, none)
    ∧ (ControlTower.update st (Message.GoToPage page_key)).1.current_menu_key
        = st.current_menu_key :=
  ⟨rfl, rfl⟩

/-- Claim C8: the transition function is total over the closed message
set — every message yields a defined successor — and arbitrary menu, page,
locale and path strings are accepted as opaque values and simply stored. -/
theorem update_total_and_stores (st : ControlTower) (k : String) :
    (∀ m : Message, ∃ r : ControlTower × Option Effect, ControlTower.update st m = r)
    ∧ (ControlTower.update st (Message.MenuClicked k)).1.current_menu_key
        = (if st.current_menu_key = k then "" else k)
    ∧ (ControlTower.update st (Message.SetLocale k)).1.current_locale = k
    ∧ (ControlTower.update st (Message.GoToPage k)).1.current_page = k
    ∧ (ControlTower.update st (Message.FileSelected k)).1.selected_file_path = k := by
  refine ⟨fun m => ⟨_, rfl⟩, ?_, rfl, rfl, rfl⟩
  simp only [ControlTower.update]
  split_ifs <;> rfl

/-- Claim C9: when `SubMenuClicked` carries a load-trigger key (`load` or
`load-problem-bank`) the transition early-returns the file-pick followup
and the state — in particular the active menu key — is left entirely
unchanged, whereas any other submenu key collapses the menu and emits no
followup. -/
theorem submenu_load_key_early_return (st : ControlTower) (k other : String)
    (h : k = "load" ∨ k = "load-problem-bank")
    (h1 : other ≠ "load") (h2 : other ≠ "load-problem-bank") :
    ControlTower.update st (Message.SubMenuClicked k)
      = (st, some Effect.PickFileThenFileSelected)
    ∧ ControlTower.update st (Message.SubMenuClicked other)
      = ({ st with current_menu_key := "" }, none) := by
  constructor
  · simp only [ControlTower.update]
    rw [if_pos h]
  · simp only [ControlTower.update]
    rw [if_neg (not_or.mpr ⟨h1, h2⟩)]

/-- Witness for C9 at the open `settings` menu with keys `load` and `edit`. -/
theorem submenu_load_key_early_return_witness :
    ("load" = "load" ∨ "load" = "load-problem-bank")
    ∧ "edit" ≠ "load"
    ∧ "edit" ≠ "load-problem-bank"
    ∧ (ControlTower.update ctSettingsOpen (Message.SubMenuClicked "load")
         = (ctSettingsOpen, some Effect.PickFileThenFileSelected)
       ∧ ControlTower.update ctSettingsOpen (Message.SubMenuClicked "edit")
         = ({ ctSettingsOpen with current_menu_key := "" }, none)) :=
  ⟨Or.inl rfl, by decide, by decide,
    submenu_load_key_early_return ctSettingsOpen "load" "edit"
      (Or.inl rfl) (by decide) (by decide)⟩

/-- Claim C10: a cancelled file-picker dialog (`none`) is converted by the
`unwrap_or_default` continuation into `FileSelected` of the empty path,
and applying that message overwrites any previously selected file path
with the empty path. -/
theorem pick_cancel_delivers_empty_path (st : ControlTower) :
    pick_file_continuation none = Message.FileSelected ""
    ∧ (ControlTower.update st (pick_file_continuation none)).1.selected_file_path = ""
    ∧ ControlTower.update st (pick_file_continuation none)
        = ({ st with selected_file_path := "", current_menu_key := "" }, none) :=
  ⟨rfl, rfl, rfl⟩
